import Mathlib

/-!
Verification of the March-Madness bracket backend (src/main.py, src/models.py).

The Entry Store is embedded shallowly: the database is a `Store` value threaded
through each operation, the current wall-clock instant is an explicit `Nat`
parameter (seconds since the epoch, compared in the fixed America/New_York
zone exactly as `datetime.now(...) >= BRACKET_DEADLINE` compares instants),
and every route handler becomes a pure function returning `Except HTTPException`
together with the store after the request.  HTTP transport, request parsing
and JSON text serialization are external collaborators, so a bracket document
is stored as the structured `Json` value itself: `json.dumps`/`json.loads`
form the textual boundary outside the store and are modelled as the identity
embedding (`some`/`loadBracket`).
-/

/-- A JSON-like structured document (the untyped bracket payload).  Numbers
are modelled as integers; no schema is validated, matching the source. -/
inductive Json where
  | null
  | bool (b : Bool)
  | num (n : Int)
  | str (s : String)
  | arr (elems : List Json)
  | obj (fields : List (String × Json))

namespace Py

/-- Python `str.lower()` restricted to ASCII letters (the inputs of
interest are ASCII email addresses). -/
def lower (s : String) : String := ⟨s.data.map Char.toLower⟩

/-- Python `str.strip()`: remove whitespace from both ends. -/
def strip (s : String) : String :=
  ⟨((s.data.dropWhile Char.isWhitespace).reverse.dropWhile Char.isWhitespace).reverse⟩

/-- Python `str.endswith(suffix)`. -/
def endswith (s suffix : String) : Bool := suffix.data.isSuffixOf s.data

end Py

/-- `models.Entry`: one row of the `entries` table.  `bracket` is `none`
until the first submission (column nullable, no default); `score` and
`locked` carry the column defaults `0` and `False` on insert. -/
structure Entry where
  id : Nat
  name : String
  email : String
  username : Option String
  bracket : Option Json
  score : Int
  locked : Bool
  created_at : Nat

/-- The durable state: the `entries` table plus the autoincrement counter
that assigns primary keys. -/
structure Store where
  entries : List Entry
  nextId : Nat

/-- `EntryCreate`: the request body of `POST /entries` (email-shape
validation is done by the parsing library, an external collaborator). -/
structure EntryCreate where
  name : String
  email : String
  username : Option String
deriving DecidableEq, Repr

/-- `fastapi.HTTPException`, as raised by the handlers. -/
structure HTTPException where
  status_code : Nat
  detail : String
deriving DecidableEq, Repr

/-- `BRACKET_DEADLINE = datetime(2026, 3, 19, 0, 0, tzinfo=ZoneInfo("America/New_York"))`,
i.e. 2026-03-19T00:00:00-04:00, as seconds since the epoch. -/
def BRACKET_DEADLINE : Nat := 1773892800

/-- `_deadline_passed()`: `now_et >= BRACKET_DEADLINE`, with the current
instant passed explicitly. -/
def deadline_passed (now : Nat) : Bool :=
  BRACKET_DEADLINE ≤ now

/-- `json.loads(e.bracket) if e.bracket else {}`: a missing bracket decodes
to the empty object. -/
def loadBracket : Option Json → Json
  | some j => j
  | none => .obj []

/-- Serialize an optional username field (`None` renders as JSON null). -/
def jsonOfUsername : Option String → Json
  | some u => .str u
  | none => .null

/-- `entry.username.strip() if entry.username else None`: Python truthiness
sends the empty string to `None` as well. -/
def stripUsername : Option String → Option String
  | some u => if u = "" then none else some (Py.strip u)
  | none => none

/-- `POST /entries` (`create_entry`): deadline gate, email normalization,
domain check, duplicate check, then insert with the column defaults. -/
def create_entry (now : Nat) (entry : EntryCreate) (db : Store) :
    Except HTTPException (List (String × Json)) × Store :=
  if deadline_passed now then
    (.error ⟨403, "Bracket entry is closed (deadline passed)."⟩, db)
  else
    let email_norm := Py.strip (Py.lower entry.email)
    if ¬ Py.endswith email_norm "@stevens.edu" then
      (.error ⟨400, "Use your @stevens.edu email"⟩, db)
    else if (db.entries.find? fun e => e.email = email_norm).isSome then
      (.error ⟨409, "Email already used"⟩, db)
    else
      let new_entry : Entry :=
        { id := db.nextId
          name := Py.strip entry.name
          email := email_norm
          username := stripUsername entry.username
          bracket := none
          score := 0
          locked := false
          created_at := now }
      (.ok [("id", .num (new_entry.id : Int)),
            ("name", .str new_entry.name),
            ("email", .str new_entry.email),
            ("username", jsonOfUsername new_entry.username)],
       { entries := db.entries ++ [new_entry], nextId := db.nextId + 1 })

/-- `created_at` ascending: the ordering of `GET /entries`. -/
def created_at_le (a b : Entry) : Prop :=
  a.created_at ≤ b.created_at

instance : DecidableRel created_at_le := fun a b =>
  inferInstanceAs (Decidable (a.created_at ≤ b.created_at))

instance : IsTotal Entry created_at_le :=
  ⟨fun a b => Nat.le_total a.created_at b.created_at⟩

instance : IsTrans Entry created_at_le :=
  ⟨fun _ _ _ hab hbc => Nat.le_trans hab hbc⟩

/-- `GET /entries` (`list_entries`): all rows ordered by `created_at` asc,
projected without the email field. -/
def list_entries (db : Store) : List (List (String × Json)) :=
  (List.insertionSort created_at_le db.entries).map fun e =>
    [("id", .num (e.id : Int)),
     ("name", .str e.name),
     ("username", jsonOfUsername e.username),
     ("bracket", loadBracket e.bracket),
     ("locked", .bool e.locked)]

/-- `GET /entries/{entry_id}` (`get_entry`): full record including the
stored (normalized) email. -/
def get_entry (entry_id : Nat) (db : Store) :
    Except HTTPException (List (String × Json)) :=
  match db.entries.find? fun e => e.id = entry_id with
  | none => .error ⟨404, "Entry not found"⟩
  | some entry =>
      .ok [("id", .num (entry.id : Int)),
           ("name", .str entry.name),
           ("email", .str entry.email),
           ("username", jsonOfUsername entry.username),
           ("bracket", loadBracket entry.bracket),
           ("locked", .bool entry.locked),
           ("score", .num entry.score)]

/-- `GET /view-bracket/{entry_id}` (`view_bracket`): same as `get_entry`
without the score field. -/
def view_bracket (entry_id : Nat) (db : Store) :
    Except HTTPException (List (String × Json)) :=
  match db.entries.find? fun e => e.id = entry_id with
  | none => .error ⟨404, "Entry not found"⟩
  | some entry =>
      .ok [("id", .num (entry.id : Int)),
           ("name", .str entry.name),
           ("email", .str entry.email),
           ("username", jsonOfUsername entry.username),
           ("bracket", loadBracket entry.bracket),
           ("locked", .bool entry.locked)]

/-- Overwrite the bracket of the first row matching the id (the ORM mutates
the row returned by `.first()`). -/
def setBracket : List Entry → Nat → Json → List Entry
  | [], _, _ => []
  | e :: es, entry_id, doc =>
      if e.id = entry_id then { e with bracket := some doc } :: es
      else e :: setBracket es entry_id doc

/-- `POST /entries/{entry_id}/bracket` (`submit_bracket`): lookup, deadline
gate, lock gate, then full overwrite of the stored bracket. -/
def submit_bracket (now : Nat) (entry_id : Nat) (bracket : Json) (db : Store) :
    Except HTTPException (List (String × Json)) × Store :=
  match db.entries.find? fun e => e.id = entry_id with
  | none => (.error ⟨404, "Entry not found"⟩, db)
  | some entry =>
      if deadline_passed now then
        (.error ⟨403, "Bracket submissions are closed (deadline passed)."⟩, db)
      else if entry.locked then
        (.error ⟨403, "Bracket is locked"⟩, db)
      else
        (.ok [("status", .str "saved"), ("entry_id", .num (entry_id : Int))],
         { db with entries := setBracket db.entries entry_id bracket })

/-- The `ORDER BY score DESC, created_at ASC` relation of the leaderboard. -/
def leaderboard_order (a b : Entry) : Prop :=
  b.score < a.score ∨ (a.score = b.score ∧ a.created_at ≤ b.created_at)

instance : DecidableRel leaderboard_order := fun a b =>
  inferInstanceAs (Decidable (b.score < a.score ∨ (a.score = b.score ∧ a.created_at ≤ b.created_at)))

instance : IsTotal Entry leaderboard_order :=
  ⟨fun a b => by
    rcases lt_trichotomy a.score b.score with h | h | h
    · exact Or.inr (Or.inl h)
    · rcases Nat.le_total a.created_at b.created_at with h' | h'
      · exact Or.inl (Or.inr ⟨h, h'⟩)
      · exact Or.inr (Or.inr ⟨h.symm, h'⟩)
    · exact Or.inl (Or.inl h)⟩

instance : IsTrans Entry leaderboard_order :=
  ⟨fun a b c hab hbc => by
    rcases hab with hab | ⟨hab, hab'⟩ <;> rcases hbc with hbc | ⟨hbc, hbc'⟩
    · exact Or.inl (lt_trans hbc hab)
    · exact Or.inl (hbc ▸ hab)
    · exact Or.inl (hab ▸ hbc)
    · exact Or.inr ⟨hab.trans hbc, hab'.trans hbc'⟩⟩

/-- The rows of `GET /leaderboard` before projection: all entries ordered by
score desc, `created_at` asc. -/
def leaderboard_rows (db : Store) : List Entry :=
  List.insertionSort leaderboard_order db.entries

/-- `GET /leaderboard` (`leaderboard`): ordered rows projected to
id, name, username, score, locked. -/
def leaderboard (db : Store) : List (List (String × Json)) :=
  (leaderboard_rows db).map fun e =>
    [("id", .num (e.id : Int)),
     ("name", .str e.name),
     ("username", jsonOfUsername e.username),
     ("score", .num e.score),
     ("locked", .bool e.locked)]

/-- C1: At or after the deadline instant, registration and bracket submission
fail with the 403 "closed" error even when every other precondition holds;
before the deadline, with all other preconditions satisfied, both succeed. -/
theorem deadline_gates_create_and_submit (now eid : Nat) (entry : EntryCreate)
    (doc : Json) (db : Store) (e : Entry) :
    (BRACKET_DEADLINE ≤ now →
      (create_entry now entry db).1 =
          .error ⟨403, "Bracket entry is closed (deadline passed)."⟩
      ∧ (db.entries.find? (fun x => x.id = eid) = some e →
          (submit_bracket now eid doc db).1 =
            .error ⟨403, "Bracket submissions are closed (deadline passed)."⟩))
    ∧ (now < BRACKET_DEADLINE →
      ((Py.endswith (Py.strip (Py.lower entry.email)) "@stevens.edu" = true →
        db.entries.find? (fun x => x.email = Py.strip (Py.lower entry.email)) = none →
        (create_entry now entry db).1.isOk = true)
       ∧ (db.entries.find? (fun x => x.id = eid) = some e → e.locked = false →
          (submit_bracket now eid doc db).1.isOk = true))) := by
  constructor
  · intro hle
    have hd : deadline_passed now = true := by
      simp [deadline_passed, hle]
    refine ⟨by simp [create_entry, hd], fun hf => ?_⟩
    simp [submit_bracket, hf, hd]
  · intro hlt
    have hd : deadline_passed now = false := by
      simp [deadline_passed]
      omega
    constructor
    · intro hdom hfresh
      simp [create_entry, hd, hdom, hfresh, Except.isOk, Except.toBool]
    · intro hf hlock
      simp [submit_bracket, hf, hd, hlock, Except.isOk, Except.toBool]

/-- C1 witness: at the deadline both operations return the 403 error; one
second before it, with preconditions satisfied, both succeed. -/
theorem deadline_gates_create_and_submit_witness :
    ((create_entry BRACKET_DEADLINE ⟨"N", "a@stevens.edu", none⟩
        ⟨[⟨1, "N", "a@stevens.edu", none, none, 0, false, 5⟩], 2⟩).1 =
      .error ⟨403, "Bracket entry is closed (deadline passed)."⟩)
    ∧ ((submit_bracket BRACKET_DEADLINE 1 .null
        ⟨[⟨1, "N", "a@stevens.edu", none, none, 0, false, 5⟩], 2⟩).1 =
      .error ⟨403, "Bracket submissions are closed (deadline passed)."⟩)
    ∧ ((create_entry (BRACKET_DEADLINE - 1) ⟨"M", "b@stevens.edu", none⟩
        ⟨[⟨1, "N", "a@stevens.edu", none, none, 0, false, 5⟩], 2⟩).1.isOk = true)
    ∧ ((submit_bracket (BRACKET_DEADLINE - 1) 1 .null
        ⟨[⟨1, "N", "a@stevens.edu", none, none, 0, false, 5⟩], 2⟩).1.isOk = true) := by
  have h1 := deadline_gates_create_and_submit BRACKET_DEADLINE 1
    ⟨"N", "a@stevens.edu", none⟩ .null
    ⟨[⟨1, "N", "a@stevens.edu", none, none, 0, false, 5⟩], 2⟩
    ⟨1, "N", "a@stevens.edu", none, none, 0, false, 5⟩
  have h2 := deadline_gates_create_and_submit (BRACKET_DEADLINE - 1) 1
    ⟨"M", "b@stevens.edu", none⟩ .null
    ⟨[⟨1, "N", "a@stevens.edu", none, none, 0, false, 5⟩], 2⟩
    ⟨1, "N", "a@stevens.edu", none, none, 0, false, 5⟩
  refine ⟨(h1.1 (le_refl _)).1, (h1.1 (le_refl _)).2 rfl,
          (h2.2 (by decide)).1 (by decide) rfl,
          (h2.2 (by decide)).2 rfl rfl⟩

/-- C6: A registration whose normalized email does not end in
"@stevens.edu" always fails (400 validation before the deadline, 403
forbidden after it), whatever the name and username are, and the store is
unchanged. -/
theorem wrong_domain_registration_rejected (now : Nat) (entry : EntryCreate)
    (db : Store)
    (hdom : Py.endswith (Py.strip (Py.lower entry.email)) "@stevens.edu" = false) :
    (create_entry now entry db).1.isOk = false
    ∧ (create_entry now entry db).2 = db
    ∧ ((create_entry now entry db).1 = .error ⟨400, "Use your @stevens.edu email"⟩
       ∨ (create_entry now entry db).1 =
           .error ⟨403, "Bracket entry is closed (deadline passed)."⟩)
    ∧ (now < BRACKET_DEADLINE →
        (create_entry now entry db).1 = .error ⟨400, "Use your @stevens.edu email"⟩) := by
  by_cases hd : deadline_passed now
  · refine ⟨by simp [create_entry, hd, Except.isOk, Except.toBool], by simp [create_entry, hd],
      Or.inr (by simp [create_entry, hd]), fun hlt => absurd hd ?_⟩
    simp [deadline_passed]
    omega
  · exact ⟨by simp [create_entry, hd, hdom, Except.isOk, Except.toBool],
      by simp [create_entry, hd, hdom],
      Or.inl (by simp [create_entry, hd, hdom]),
      fun _ => by simp [create_entry, hd, hdom]⟩

/-- C6 witness: a gmail address with a valid name is rejected with 400 and
the store is untouched. -/
theorem wrong_domain_registration_rejected_witness :
    Py.endswith (Py.strip (Py.lower "x@gmail.com")) "@stevens.edu" = false
    ∧ (create_entry 0 ⟨"Real Name", "x@gmail.com", some "handle"⟩ ⟨[], 1⟩).1 =
        .error ⟨400, "Use your @stevens.edu email"⟩
    ∧ (create_entry 0 ⟨"Real Name", "x@gmail.com", some "handle"⟩ ⟨[], 1⟩).2 = ⟨[], 1⟩ := by
  have h := wrong_domain_registration_rejected 0
    ⟨"Real Name", "x@gmail.com", some "handle"⟩ ⟨[], 1⟩ (by decide)
  exact ⟨by decide, h.2.2.2 (by decide), h.2.1⟩

/-- C9: Atomicity — whenever registration or bracket submission returns an
error, the store after the request equals the store before it. -/
theorem failed_operations_leave_store_unchanged (now eid : Nat)
    (entry : EntryCreate) (doc : Json) (db : Store) :
    ((create_entry now entry db).1.isOk = false → (create_entry now entry db).2 = db)
    ∧ ((submit_bracket now eid doc db).1.isOk = false →
        (submit_bracket now eid doc db).2 = db) := by
  constructor
  · intro h
    by_cases h1 : deadline_passed now
    · simp [create_entry, h1]
    · by_cases h2 : Py.endswith (Py.strip (Py.lower entry.email)) "@stevens.edu"
      · by_cases h3 : (db.entries.find? fun e =>
            e.email = Py.strip (Py.lower entry.email)).isSome
        · simp [create_entry, h1, h2, h3]
        · exfalso
          simp [create_entry, h1, h2, h3, Except.isOk, Except.toBool] at h
      · simp [create_entry, h1, h2]
  · intro h
    match hf : db.entries.find? fun e => e.id = eid with
    | none => simp [submit_bracket, hf]
    | some e =>
      by_cases h1 : deadline_passed now
      · simp [submit_bracket, hf, h1]
      · by_cases h2 : e.locked
        · simp [submit_bracket, hf, h1, h2]
        · exfalso
          simp [submit_bracket, hf, h1, h2, Except.isOk, Except.toBool] at h

/-- C9 witness: a duplicate-email registration and a not-found submission
both fail and leave the concrete store exactly as it was. -/
theorem failed_operations_leave_store_unchanged_witness :
    ((create_entry 0 ⟨"N", "a@stevens.edu", none⟩
        ⟨[⟨1, "N", "a@stevens.edu", none, none, 0, false, 5⟩], 2⟩).2 =
      ⟨[⟨1, "N", "a@stevens.edu", none, none, 0, false, 5⟩], 2⟩)
    ∧ ((submit_bracket 0 7 .null
        ⟨[⟨1, "N", "a@stevens.edu", none, none, 0, false, 5⟩], 2⟩).2 =
      ⟨[⟨1, "N", "a@stevens.edu", none, none, 0, false, 5⟩], 2⟩) := by
  have h := failed_operations_leave_store_unchanged 0 7
    ⟨"N", "a@stevens.edu", none⟩ .null
    ⟨[⟨1, "N", "a@stevens.edu", none, none, 0, false, 5⟩], 2⟩
  exact ⟨h.1 (by decide), h.2 (by decide)⟩

/-- C10: The closed-state comparison is inclusive: at now equal to
`BRACKET_DEADLINE` the deadline counts as passed, registration returns the
403 error, and submission on an existing entry returns the 403 error. -/
theorem deadline_instant_already_closed (entry : EntryCreate) (eid : Nat)
    (doc : Json) (db : Store) (e : Entry) :
    deadline_passed BRACKET_DEADLINE = true
    ∧ (create_entry BRACKET_DEADLINE entry db).1 =
        .error ⟨403, "Bracket entry is closed (deadline passed)."⟩
    ∧ (db.entries.find? (fun x => x.id = eid) = some e →
        (submit_bracket BRACKET_DEADLINE eid doc db).1 =
          .error ⟨403, "Bracket submissions are closed (deadline passed)."⟩) := by
  have hd : deadline_passed BRACKET_DEADLINE = true := by
    simp [deadline_passed]
  refine ⟨hd, by simp [create_entry, hd], fun hf => ?_⟩
  simp [submit_bracket, hf, hd]

/-- C10 witness: concrete otherwise-valid requests at exactly the deadline
instant are rejected with 403. -/
theorem deadline_instant_already_closed_witness :
    (create_entry BRACKET_DEADLINE ⟨"N", "b@stevens.edu", none⟩
        ⟨[⟨1, "N", "a@stevens.edu", none, none, 0, false, 5⟩], 2⟩).1 =
      .error ⟨403, "Bracket entry is closed (deadline passed)."⟩
    ∧ (submit_bracket BRACKET_DEADLINE 1 .null
        ⟨[⟨1, "N", "a@stevens.edu", none, none, 0, false, 5⟩], 2⟩).1 =
      .error ⟨403, "Bracket submissions are closed (deadline passed)."⟩ := by
  have h := deadline_instant_already_closed ⟨"N", "b@stevens.edu", none⟩ 1 .null
    ⟨[⟨1, "N", "a@stevens.edu", none, none, 0, false, 5⟩], 2⟩
    ⟨1, "N", "a@stevens.edu", none, none, 0, false, 5⟩
  exact ⟨h.2.1, h.2.2 rfl⟩

/-- Finding by id after `setBracket` returns the found entry with only its
bracket replaced. -/
theorem find?_setBracket (l : List Entry) (i : Nat) (d : Json) (e : Entry)
    (h : l.find? (fun x => x.id = i) = some e) :
    (setBracket l i d).find? (fun x => x.id = i) = some { e with bracket := some d } := by
  induction l with
  | nil => simp at h
  | cons a as ih =>
    by_cases ha : a.id = i
    · rw [List.find?_cons_of_pos _ (by simp [ha])] at h
      cases h
      rw [setBracket, if_pos ha]
      exact List.find?_cons_of_pos _ (by simp [ha])
    · rw [List.find?_cons_of_neg _ (by simp [ha])] at h
      rw [setBracket, if_neg ha]
      rw [List.find?_cons_of_neg _ (by simp [ha])]
      exact ih h

/-- C2: Two registrations whose emails normalize to the same string: the
first otherwise-valid one succeeds, and the second then fails with the 409
conflict — including pure case/whitespace variants. -/
theorem duplicate_email_registration_conflicts (now₁ now₂ : Nat)
    (e₁ e₂ : EntryCreate) (db : Store)
    (h₁ : now₁ < BRACKET_DEADLINE) (h₂ : now₂ < BRACKET_DEADLINE)
    (hdom : Py.endswith (Py.strip (Py.lower e₁.email)) "@stevens.edu" = true)
    (hfresh : db.entries.find? (fun e => e.email = Py.strip (Py.lower e₁.email)) = none)
    (hsame : Py.strip (Py.lower e₁.email) = Py.strip (Py.lower e₂.email)) :
    (create_entry now₁ e₁ db).1.isOk = true
    ∧ (create_entry now₂ e₂ (create_entry now₁ e₁ db).2).1 =
        .error ⟨409, "Email already used"⟩ := by
  have hd₁ : deadline_passed now₁ = false := by
    simp [deadline_passed]; omega
  have hd₂ : deadline_passed now₂ = false := by
    simp [deadline_passed]; omega
  have hstep : (create_entry now₁ e₁ db).2 =
      { entries := db.entries ++
          [⟨db.nextId, Py.strip e₁.name, Py.strip (Py.lower e₁.email),
            stripUsername e₁.username, none, 0, false, now₁⟩],
        nextId := db.nextId + 1 } := by
    simp [create_entry, hd₁, hdom, hfresh]
  refine ⟨by simp [create_entry, hd₁, hdom, hfresh, Except.isOk, Except.toBool], ?_⟩
  have hdom₂ : Py.endswith (Py.strip (Py.lower e₂.email)) "@stevens.edu" = true :=
    hsame ▸ hdom
  rw [hstep]
  simp [create_entry, hd₂, hdom₂]
  rw [if_pos (Or.inr hsame)]

/-- C2 witness: "A@Stevens.EDU " then "a@stevens.edu" on an empty store —
the first succeeds, the second returns 409. -/
theorem duplicate_email_registration_conflicts_witness :
    (create_entry 0 ⟨"A", "A@Stevens.EDU ", none⟩ ⟨[], 1⟩).1.isOk = true
    ∧ (create_entry 1 ⟨"B", "a@stevens.edu", none⟩
        (create_entry 0 ⟨"A", "A@Stevens.EDU ", none⟩ ⟨[], 1⟩).2).1 =
      .error ⟨409, "Email already used"⟩ := by
  have h := duplicate_email_registration_conflicts 0 1
    ⟨"A", "A@Stevens.EDU ", none⟩ ⟨"B", "a@stevens.edu", none⟩ ⟨[], 1⟩
    (by decide) (by decide) (by decide) rfl (by decide)
  exact h

/-- C3: Submission to a locked entry always fails and never changes the
store, whether the deadline has passed or not. -/
theorem locked_entry_submission_fails (now eid : Nat) (doc : Json)
    (db : Store) (e : Entry)
    (hf : db.entries.find? (fun x => x.id = eid) = some e)
    (hlock : e.locked = true) :
    (submit_bracket now eid doc db).1.isOk = false
    ∧ (submit_bracket now eid doc db).2 = db := by
  by_cases hd : deadline_passed now
  · exact ⟨by simp [submit_bracket, hf, hd, Except.isOk, Except.toBool],
           by simp [submit_bracket, hf, hd]⟩
  · exact ⟨by simp [submit_bracket, hf, hd, hlock, Except.isOk, Except.toBool],
           by simp [submit_bracket, hf, hd, hlock]⟩

/-- C3 witness: a locked entry rejects a submission both before and at the
deadline, leaving the store untouched. -/
theorem locked_entry_submission_fails_witness :
    ((submit_bracket 0 1 .null
        ⟨[⟨1, "N", "a@stevens.edu", none, none, 0, true, 5⟩], 2⟩).1.isOk = false
     ∧ (submit_bracket 0 1 .null
        ⟨[⟨1, "N", "a@stevens.edu", none, none, 0, true, 5⟩], 2⟩).2 =
       ⟨[⟨1, "N", "a@stevens.edu", none, none, 0, true, 5⟩], 2⟩)
    ∧ ((submit_bracket BRACKET_DEADLINE 1 .null
        ⟨[⟨1, "N", "a@stevens.edu", none, none, 0, true, 5⟩], 2⟩).1.isOk = false
     ∧ (submit_bracket BRACKET_DEADLINE 1 .null
        ⟨[⟨1, "N", "a@stevens.edu", none, none, 0, true, 5⟩], 2⟩).2 =
       ⟨[⟨1, "N", "a@stevens.edu", none, none, 0, true, 5⟩], 2⟩) :=
  ⟨locked_entry_submission_fails 0 1 .null
      ⟨[⟨1, "N", "a@stevens.edu", none, none, 0, true, 5⟩], 2⟩
      ⟨1, "N", "a@stevens.edu", none, none, 0, true, 5⟩ rfl rfl,
   locked_entry_submission_fails BRACKET_DEADLINE 1 .null
      ⟨[⟨1, "N", "a@stevens.edu", none, none, 0, true, 5⟩], 2⟩
      ⟨1, "N", "a@stevens.edu", none, none, 0, true, 5⟩ rfl rfl⟩

/-- C5: Submitting document D to an existing unlocked entry before the
deadline succeeds, and an immediate fetch returns the record with bracket
exactly D — prior keys are gone (full overwrite, never a merge). -/
theorem submit_then_get_roundtrip (now eid : Nat) (doc : Json) (db : Store)
    (e : Entry)
    (hf : db.entries.find? (fun x => x.id = eid) = some e)
    (hlock : e.locked = false)
    (hlt : now < BRACKET_DEADLINE) :
    (submit_bracket now eid doc db).1.isOk = true
    ∧ get_entry eid (submit_bracket now eid doc db).2 =
        .ok [("id", .num (e.id : Int)),
             ("name", .str e.name),
             ("email", .str e.email),
             ("username", jsonOfUsername e.username),
             ("bracket", doc),
             ("locked", .bool e.locked),
             ("score", .num e.score)] := by
  have hd : deadline_passed now = false := by
    simp [deadline_passed]; omega
  have hres : (submit_bracket now eid doc db).2 =
      { db with entries := setBracket db.entries eid doc } := by
    simp [submit_bracket, hf, hd, hlock]
  refine ⟨by simp [submit_bracket, hf, hd, hlock, Except.isOk, Except.toBool], ?_⟩
  rw [hres]
  simp [get_entry, find?_setBracket db.entries eid doc e hf, loadBracket]

/-- C5 witness: overwrite a stored bracket that had key "old" with one that
has only key "new"; the fetched bracket is exactly the new document. -/
theorem submit_then_get_roundtrip_witness :
    (submit_bracket 0 1 (.obj [("new", .num 1)])
        ⟨[⟨1, "N", "a@stevens.edu", none, some (.obj [("old", .num 7)]), 0, false, 5⟩], 2⟩).1.isOk = true
    ∧ get_entry 1 (submit_bracket 0 1 (.obj [("new", .num 1)])
        ⟨[⟨1, "N", "a@stevens.edu", none, some (.obj [("old", .num 7)]), 0, false, 5⟩], 2⟩).2 =
      .ok [("id", .num 1),
           ("name", .str "N"),
           ("email", .str "a@stevens.edu"),
           ("username", .null),
           ("bracket", .obj [("new", .num 1)]),
           ("locked", .bool false),
           ("score", .num 0)] := by
  have h := submit_then_get_roundtrip 0 1 (.obj [("new", .num 1)])
    ⟨[⟨1, "N", "a@stevens.edu", none, some (.obj [("old", .num 7)]), 0, false, 5⟩], 2⟩
    ⟨1, "N", "a@stevens.edu", none, some (.obj [("old", .num 7)]), 0, false, 5⟩
    rfl rfl (by decide)
  exact ⟨h.1, h.2⟩

/-- C4: The leaderboard rows are a permutation of all stored entries,
pairwise ordered by score descending with `created_at` ascending among
equal scores; on the concrete store A(10, earlier), B(20), C(10, later)
the order is [B, A, C]. -/
theorem leaderboard_sorted_and_complete (db : Store) :
    (leaderboard_rows db).Perm db.entries
    ∧ (leaderboard_rows db).Pairwise (fun a b =>
        b.score < a.score ∨ (a.score = b.score ∧ a.created_at ≤ b.created_at))
    ∧ leaderboard_rows
        ⟨[⟨1, "A", "a@stevens.edu", none, none, 10, false, 1⟩,
          ⟨2, "B", "b@stevens.edu", none, none, 20, false, 2⟩,
          ⟨3, "C", "c@stevens.edu", none, none, 10, false, 3⟩], 4⟩ =
        [⟨2, "B", "b@stevens.edu", none, none, 20, false, 2⟩,
         ⟨1, "A", "a@stevens.edu", none, none, 10, false, 1⟩,
         ⟨3, "C", "c@stevens.edu", none, none, 10, false, 3⟩] :=
  ⟨List.perm_insertionSort leaderboard_order db.entries,
   List.sorted_insertionSort leaderboard_order db.entries,
   rfl⟩

/-- An entry found by id is a member of the list and carries that id. -/
theorem find?_id_mem (l : List Entry) (i : Nat) (e : Entry)
    (h : l.find? (fun x => x.id = i) = some e) : e ∈ l ∧ e.id = i := by
  induction l with
  | nil => simp at h
  | cons a as ih =>
    by_cases ha : a.id = i
    · rw [List.find?_cons_of_pos _ (by simp [ha])] at h
      cases h
      exact ⟨List.mem_cons_self _ _, ha⟩
    · rw [List.find?_cons_of_neg _ (by simp [ha])] at h
      obtain ⟨hm, hi⟩ := ih h
      exact ⟨List.mem_cons_of_mem _ hm, hi⟩

/-- C7: Every record of `list_entries` has no "email" key, while every
successful `get_entry` and `view_bracket` response carries the stored
(normalized) email of the matching entry. -/
theorem email_shown_only_in_single_entry_views (db : Store) (eid : Nat) :
    (∀ r ∈ list_entries db, List.lookup "email" r = none)
    ∧ (∀ r, get_entry eid db = .ok r →
        ∃ e ∈ db.entries, e.id = eid ∧ List.lookup "email" r = some (.str e.email))
    ∧ (∀ r, view_bracket eid db = .ok r →
        ∃ e ∈ db.entries, e.id = eid ∧ List.lookup "email" r = some (.str e.email)) := by
  refine ⟨?_, ?_, ?_⟩
  · intro r hr
    simp only [list_entries, List.mem_map] at hr
    obtain ⟨e, _, rfl⟩ := hr
    rfl
  · intro r hr
    cases hfind : db.entries.find? fun e => e.id = eid with
    | none => simp [get_entry, hfind] at hr
    | some e =>
      simp only [get_entry, hfind] at hr
      cases hr
      exact ⟨e, (find?_id_mem db.entries eid e hfind).1,
        (find?_id_mem db.entries eid e hfind).2, rfl⟩
  · intro r hr
    cases hfind : db.entries.find? fun e => e.id = eid with
    | none => simp [view_bracket, hfind] at hr
    | some e =>
      simp only [view_bracket, hfind] at hr
      cases hr
      exact ⟨e, (find?_id_mem db.entries eid e hfind).1,
        (find?_id_mem db.entries eid e hfind).2, rfl⟩

/-- C7 witness: on a one-entry store the list record has no email key and
both single-entry views return the stored email. -/
theorem email_shown_only_in_single_entry_views_witness :
    List.lookup "email" (list_entries
      ⟨[⟨1, "N", "a@stevens.edu", none, none, 0, false, 5⟩], 2⟩).head! = none
    ∧ (∃ r, get_entry 1 ⟨[⟨1, "N", "a@stevens.edu", none, none, 0, false, 5⟩], 2⟩ = .ok r
        ∧ List.lookup "email" r = some (.str "a@stevens.edu"))
    ∧ (∃ r, view_bracket 1 ⟨[⟨1, "N", "a@stevens.edu", none, none, 0, false, 5⟩], 2⟩ = .ok r
        ∧ List.lookup "email" r = some (.str "a@stevens.edu")) := by
  have h := email_shown_only_in_single_entry_views
    ⟨[⟨1, "N", "a@stevens.edu", none, none, 0, false, 5⟩], 2⟩ 1
  refine ⟨h.1 _ (by simp [list_entries]), ?_, ?_⟩
  · obtain ⟨e, hm, -, hl⟩ := h.2.1 _ rfl
    simp only [List.mem_singleton] at hm
    subst hm
    exact ⟨_, rfl, hl⟩
  · obtain ⟨e, hm, -, hl⟩ := h.2.2 _ rfl
    simp only [List.mem_singleton] at hm
    subst hm
    exact ⟨_, rfl, hl⟩

/-- The fields of an entry that bracket submission must not touch. -/
def frameFields (e : Entry) :
    Nat × String × String × Option String × Int × Bool × Nat :=
  (e.id, e.name, e.email, e.username, e.score, e.locked, e.created_at)

/-- `setBracket` only rewrites bracket fields: every other field of every
row is preserved. -/
theorem setBracket_frameFields (l : List Entry) (i : Nat) (d : Json) :
    (setBracket l i d).map frameFields = l.map frameFields := by
  induction l with
  | nil => rfl
  | cons a as ih =>
    by_cases ha : a.id = i
    · simp [setBracket, ha, frameFields]
    · simp [setBracket, ha, ih]

/-- C8: A successful registration appends one entry with the defaults
`score = 0` and `locked = false`; a successful submission preserves id,
name, email, username, score, locked and `created_at` of every entry. -/
theorem operations_respect_frame (now eid : Nat) (entry : EntryCreate)
    (doc : Json) (db : Store) :
    ((create_entry now entry db).1.isOk = true →
      ∃ e, (create_entry now entry db).2.entries = db.entries ++ [e]
        ∧ e.score = 0 ∧ e.locked = false)
    ∧ ((submit_bracket now eid doc db).1.isOk = true →
        (submit_bracket now eid doc db).2.entries.map frameFields =
          db.entries.map frameFields) := by
  constructor
  · intro h
    by_cases h1 : deadline_passed now
    · exfalso; simp [create_entry, h1, Except.isOk, Except.toBool] at h
    · by_cases h2 : Py.endswith (Py.strip (Py.lower entry.email)) "@stevens.edu"
      · by_cases h3 : (db.entries.find? fun e =>
            e.email = Py.strip (Py.lower entry.email)).isSome
        · exfalso; simp [create_entry, h1, h2, h3, Except.isOk, Except.toBool] at h
        · refine ⟨⟨db.nextId, Py.strip entry.name, Py.strip (Py.lower entry.email),
              stripUsername entry.username, none, 0, false, now⟩, ?_, rfl, rfl⟩
          simp [create_entry, h1, h2, h3]
      · exfalso; simp [create_entry, h1, h2, Except.isOk, Except.toBool] at h
  · intro h
    match hf : db.entries.find? fun e => e.id = eid with
    | none => exfalso; simp [submit_bracket, hf, Except.isOk, Except.toBool] at h
    | some e =>
      by_cases h1 : deadline_passed now
      · exfalso; simp [submit_bracket, hf, h1, Except.isOk, Except.toBool] at h
      · by_cases h2 : e.locked
        · exfalso; simp [submit_bracket, hf, h1, h2, Except.isOk, Except.toBool] at h
        · have : (submit_bracket now eid doc db).2 =
              { db with entries := setBracket db.entries eid doc } := by
            simp [submit_bracket, hf, h1, h2]
          rw [this]
          exact setBracket_frameFields db.entries eid doc

/-- C8 witness: a concrete successful registration appends an entry with
the default score and lock, and a concrete successful submission leaves
all framed fields of the stored row unchanged. -/
theorem operations_respect_frame_witness :
    (∃ e, (create_entry 0 ⟨"N", "b@stevens.edu", none⟩
        ⟨[⟨1, "N", "a@stevens.edu", none, none, 3, true, 5⟩], 2⟩).2.entries =
          [⟨1, "N", "a@stevens.edu", none, none, 3, true, 5⟩] ++ [e]
        ∧ e.score = 0 ∧ e.locked = false)
    ∧ ((submit_bracket 0 1 (.obj [("x", .null)])
        ⟨[⟨1, "N", "a@stevens.edu", none, none, 3, false, 5⟩], 2⟩).2.entries.map frameFields =
      [⟨1, "N", "a@stevens.edu", none, none, 3, false, 5⟩].map frameFields) :=
  ⟨(operations_respect_frame 0 1 ⟨"N", "b@stevens.edu", none⟩
      (.obj [("x", .null)]) ⟨[⟨1, "N", "a@stevens.edu", none, none, 3, true, 5⟩], 2⟩).1
    (by decide),
   (operations_respect_frame 0 1 ⟨"N", "b@stevens.edu", none⟩
      (.obj [("x", .null)]) ⟨[⟨1, "N", "a@stevens.edu", none, none, 3, false, 5⟩], 2⟩).2
    (by decide)⟩
